import Mathlib

/-!
Shallow embedding of the subscription lifecycle and usage-gating engine of
the `nutricion` bot (src/database/subscription_repository.py,
src/services/subscription_renewal_service.py, src/services/payment_service.py,
src/handlers/callback_handlers.py, src/models/database.py, src/config/config.py).

Conventions of the embedding:
* `datetime.utcnow()` becomes an explicit `now : Nat` parameter (seconds);
  `timedelta(days = d)` is `d * daySecs`, `timedelta(hours = h)` is `h * hourSecs`.
* The async SQLAlchemy session becomes explicit state passing over `Store`
  (the `user_subscriptions` table) and `UsageStore` (the `user_usage` table);
  autoincrement primary keys are modelled with a `next_id` counter.
* `result.scalar_one_or_none()` is modelled faithfully: it raises
  `MultipleResultsFound` when the query matched more than one row, so the
  repository operations return `Except String _`.
* Money amounts are only copied around, never computed with, so `Float`
  amounts are modelled as `Nat`.
* The YooKassa SDK is an external collaborator; it is modelled as an oracle
  (`YooKassa`) whose calls either return a value or raise (`Except Unit _`).

The file lists the definitions of the embedding (including the concrete
stores, gateways and observation helpers used by concrete evaluations) first,
followed by all theorems.
-/

namespace Nutricion

/-- `config.SUBSCRIPTION_DAYS` default (src/config/config.py line 96). -/
def SUBSCRIPTION_DAYS : Nat := 30

/-- `config.FREE_PHOTO_LIMIT` default (src/config/config.py line 97). -/
def FREE_PHOTO_LIMIT : Nat := 5

/-- `config.FREE_QUESTION_LIMIT` default (src/config/config.py line 98). -/
def FREE_QUESTION_LIMIT : Nat := 10

/-- Seconds in a day: `timedelta(days = 1)`. -/
def daySecs : Nat := 86400

/-- Seconds in an hour: `timedelta(hours = 1)`. -/
def hourSecs : Nat := 3600

/-- Row of the `user_subscriptions` table (src/models/database.py lines 141-163),
with the column defaults of the model. -/
structure UserSubscription where
  id : Nat
  user_id : Nat
  payment_id : String
  amount : Nat
  currency : String := "RUB"
  status : String := "pending"
  start_date : Option Nat := none
  end_date : Option Nat := none
  created_at : Nat := 0
  is_auto_renewal : Bool := true
  parent_payment_id : Option String := none
  next_payment_date : Option Nat := none
  renewal_attempts : Nat := 0
  last_renewal_attempt : Option Nat := none
deriving Repr, DecidableEq

/-- Row of the `user_usage` table (src/models/database.py lines 165-176). -/
structure UserUsage where
  id : Nat
  user_id : Nat
  photos_used : Nat := 0
  questions_used : Nat := 0
  last_reset : Nat
deriving Repr, DecidableEq

/-- The `user_subscriptions` table with its autoincrement counter. -/
structure Store where
  subs : List UserSubscription := []
  next_id : Nat := 1
deriving Repr, DecidableEq

/-- The `user_usage` table with its autoincrement counter. -/
structure UsageStore where
  rows : List UserUsage := []
  next_id : Nat := 1
deriving Repr, DecidableEq

/-- SQLAlchemy's `Result.scalar_one_or_none()`: `none` on no row, the row when
it is unique, and the `MultipleResultsFound` exception otherwise. -/
def scalar_one_or_none {α : Type} (l : List α) : Except String (Option α) :=
  match l with
  | [] => Except.ok none
  | [a] => Except.ok (some a)
  | _ => Except.error "MultipleResultsFound"

/-- Committing a mutated ORM row: the row with the same primary key is
replaced in the table. -/
def updateSub (st : Store) (s : UserSubscription) : Store :=
  { st with subs := st.subs.map (fun r => if r.id == s.id then s else r) }

/-- `SubscriptionRepository.create_subscription` (lines 15-32): insert a new
`pending` row for the payment. -/
def create_subscription (st : Store) (now : Nat) (user_id : Nat)
    (payment_id : String) (amount : Nat) : UserSubscription × Store :=
  let sub : UserSubscription :=
    { id := st.next_id, user_id := user_id, payment_id := payment_id,
      amount := amount, created_at := now }
  (sub, { subs := st.subs ++ [sub], next_id := st.next_id + 1 })

/-- `SubscriptionRepository.activate_subscription` (lines 34-53): look the row
up by `payment_id` and, when found, stamp `succeeded` status and fresh
start/end/next-payment dates — the current status is not consulted. -/
def activate_subscription (st : Store) (now : Nat) (payment_id : String) :
    Except String (Option UserSubscription × Store) :=
  match scalar_one_or_none (st.subs.filter (fun r => r.payment_id == payment_id)) with
  | Except.error e => Except.error e
  | Except.ok none => Except.ok (none, st)
  | Except.ok (some sub) =>
    let sub2 := { sub with
      status := "succeeded",
      start_date := some now,
      end_date := some (now + SUBSCRIPTION_DAYS * daySecs),
      next_payment_date := some (now + SUBSCRIPTION_DAYS * daySecs) }
    Except.ok (some sub2, updateSub st sub2)

/-- The WHERE clause of `get_active_subscription`:
`user_id == user_id AND status == 'succeeded' AND end_date > utcnow()`. -/
def isActiveRow (now : Nat) (user_id : Nat) (r : UserSubscription) : Bool :=
  r.user_id == user_id && r.status == "succeeded" &&
    (match r.end_date with
     | some e => now < e
     | none => false)

/-- One insertion step of `ORDER BY end_date DESC` (descending insertion sort). -/
def insertByEndDesc (a : UserSubscription) :
    List UserSubscription → List UserSubscription
  | [] => [a]
  | b :: t =>
      if a.end_date.getD 0 ≤ b.end_date.getD 0 then b :: insertByEndDesc a t
      else a :: b :: t

/-- `ORDER BY end_date DESC` over the matched rows. -/
def sortByEndDesc (l : List UserSubscription) : List UserSubscription :=
  l.foldr insertByEndDesc []

/-- The rows of the store matching the active predicate for a user. -/
def activeRows (st : Store) (now : Nat) (user_id : Nat) : List UserSubscription :=
  st.subs.filter (isActiveRow now user_id)

/-- `SubscriptionRepository.get_active_subscription` (lines 55-70): the rows
matching the active predicate, ordered by `end_date DESC`, consumed with
`scalar_one_or_none` (which raises when more than one row matches). -/
def get_active_subscription (st : Store) (now : Nat) (user_id : Nat) :
    Except String (Option UserSubscription) :=
  scalar_one_or_none (sortByEndDesc (activeRows st now user_id))

/-- `SubscriptionRepository.cancel_subscription` (lines 72-88): set `canceled`
and drop the auto-renewal flag; `false` when the id is unknown. -/
def cancel_subscription (st : Store) (subscription_id : Nat) :
    Except String (Bool × Store) :=
  match scalar_one_or_none (st.subs.filter (fun r => r.id == subscription_id)) with
  | Except.error e => Except.error e
  | Except.ok none => Except.ok (false, st)
  | Except.ok (some sub) =>
    let sub2 := { sub with status := "canceled", is_auto_renewal := false }
    Except.ok (true, updateSub st sub2)

/-- `SubscriptionRepository.toggle_auto_renewal` (lines 90-102): set the flag
on the active subscription, when there is one. -/
def toggle_auto_renewal (st : Store) (now : Nat) (user_id : Nat) (enable : Bool) :
    Except String (Option UserSubscription × Store) :=
  match get_active_subscription st now user_id with
  | Except.error e => Except.error e
  | Except.ok none => Except.ok (none, st)
  | Except.ok (some sub) =>
    let sub2 := { sub with is_auto_renewal := enable }
    Except.ok (some sub2, updateSub st sub2)

/-- `SubscriptionRepository.get_expiring_subscriptions` (lines 104-121):
`succeeded`, auto-renewal enabled, `end_date <= utcnow() + days_before` and
`end_date > utcnow()`. -/
def get_expiring_subscriptions (st : Store) (now : Nat) (days_before : Nat) :
    List UserSubscription :=
  let check_date := now + days_before * daySecs
  st.subs.filter (fun r =>
    r.status == "succeeded" && r.is_auto_renewal &&
      (match r.end_date with
       | some e => e ≤ check_date && now < e
       | none => false))

/-- `SubscriptionRepository.create_renewal_subscription` (lines 123-142): new
`pending` row copying amount/currency/auto-renewal, linked through
`parent_payment_id`. -/
def create_renewal_subscription (st : Store) (now : Nat)
    (old : UserSubscription) (payment_id : String) : UserSubscription × Store :=
  let sub : UserSubscription :=
    { id := st.next_id, user_id := old.user_id, payment_id := payment_id,
      amount := old.amount, currency := old.currency,
      parent_payment_id := some old.payment_id,
      is_auto_renewal := old.is_auto_renewal, created_at := now }
  (sub, { subs := st.subs ++ [sub], next_id := st.next_id + 1 })

/-- `SubscriptionRepository.update_renewal_attempt` (lines 144-157): bump the
attempt counter and stamp the attempt time. -/
def update_renewal_attempt (st : Store) (now : Nat) (subscription_id : Nat) :
    Except String Store :=
  match scalar_one_or_none (st.subs.filter (fun r => r.id == subscription_id)) with
  | Except.error e => Except.error e
  | Except.ok none => Except.ok st
  | Except.ok (some sub) =>
    Except.ok (updateSub st { sub with
      renewal_attempts := sub.renewal_attempts + 1,
      last_renewal_attempt := some now })

/-- Committing a mutated usage row. -/
def updateUsage (us : UsageStore) (u : UserUsage) : UsageStore :=
  { us with rows := us.rows.map (fun r => if r.id == u.id then u else r) }

/-- `UsageRepository.get_or_create_usage` (lines 176-193): fetch the user's
usage row, creating it with zero counters when absent. -/
def get_or_create_usage (us : UsageStore) (now : Nat) (user_id : Nat) :
    Except String (UserUsage × UsageStore) :=
  match scalar_one_or_none (us.rows.filter (fun r => r.user_id == user_id)) with
  | Except.error e => Except.error e
  | Except.ok (some u) => Except.ok (u, us)
  | Except.ok none =>
    let u : UserUsage :=
      { id := us.next_id, user_id := user_id, last_reset := now }
    Except.ok (u, { rows := us.rows ++ [u], next_id := us.next_id + 1 })

/-- `UsageRepository.increment_photos` (lines 195-205). -/
def increment_photos (us : UsageStore) (now : Nat) (user_id : Nat) :
    Except String (UserUsage × UsageStore) :=
  match get_or_create_usage us now user_id with
  | Except.error e => Except.error e
  | Except.ok (u, us2) =>
    let u2 := { u with photos_used := u.photos_used + 1 }
    Except.ok (u2, updateUsage us2 u2)

/-- `UsageRepository.increment_questions` (lines 207-217). -/
def increment_questions (us : UsageStore) (now : Nat) (user_id : Nat) :
    Except String (UserUsage × UsageStore) :=
  match get_or_create_usage us now user_id with
  | Except.error e => Except.error e
  | Except.ok (u, us2) =>
    let u2 := { u with questions_used := u.questions_used + 1 }
    Except.ok (u2, updateUsage us2 u2)

/-- `UsageRepository.reset_usage` (lines 219-231): zero both counters and
stamp `last_reset = utcnow()`. -/
def reset_usage (us : UsageStore) (now : Nat) (user_id : Nat) :
    Except String (UserUsage × UsageStore) :=
  match get_or_create_usage us now user_id with
  | Except.error e => Except.error e
  | Except.ok (u, us2) =>
    let u2 := { u with photos_used := 0, questions_used := 0, last_reset := now }
    Except.ok (u2, updateUsage us2 u2)

/-- `UsageRepository.can_use_photo` (lines 233-247): an active subscription
grants the action outright, otherwise the free-photo counter is compared
against the limit. -/
def can_use_photo (st : Store) (us : UsageStore) (now : Nat) (user_id : Nat) :
    Except String (Bool × UsageStore) :=
  match get_active_subscription st now user_id with
  | Except.error e => Except.error e
  | Except.ok (some _) => Except.ok (true, us)
  | Except.ok none =>
    match get_or_create_usage us now user_id with
    | Except.error e => Except.error e
    | Except.ok (u, us2) =>
      Except.ok (decide (u.photos_used < FREE_PHOTO_LIMIT), us2)

/-- `UsageRepository.can_ask_question` (lines 249-263): symmetric to
`can_use_photo` with the question counter and limit. -/
def can_ask_question (st : Store) (us : UsageStore) (now : Nat) (user_id : Nat) :
    Except String (Bool × UsageStore) :=
  match get_active_subscription st now user_id with
  | Except.error e => Except.error e
  | Except.ok (some _) => Except.ok (true, us)
  | Except.ok none =>
    match get_or_create_usage us now user_id with
    | Except.error e => Except.error e
    | Except.ok (u, us2) =>
      Except.ok (decide (u.questions_used < FREE_QUESTION_LIMIT), us2)

/-- The dict returned by `PaymentService.create_payment` /
`create_recurrent_payment` (src/services/payment_service.py). -/
structure PaymentInfo where
  id : String
  status : String
  confirmation_url : Option String := none
  amount : Nat
deriving Repr, DecidableEq

/-- Oracle for the YooKassa SDK calls made by `PaymentService`.
`find_one pid` models `Payment.find_one(pid)`: `Except.error` is a raised
exception, `Except.ok none` a falsy payment object, and `Except.ok (some m)`
a payment whose `payment_method` is `m` (`none` when no method is stored).
`create_raw` models `Payment.create` for a plain redirect payment and
`create_recurrent_raw m` models `Payment.create` with `payment_method_id = m`;
`Except.error` is again a raised exception. -/
structure YooKassa where
  find_one : String → Except Unit (Option (Option String))
  create_raw : Except Unit PaymentInfo
  create_recurrent_raw : String → Except Unit PaymentInfo

/-- `PaymentService.create_payment` (lines 23-63): any exception from the SDK
is caught and turned into `None`. -/
def create_payment (gw : YooKassa) : Option PaymentInfo :=
  match gw.create_raw with
  | Except.error _ => none
  | Except.ok p => some p

/-- `PaymentService.create_recurrent_payment` (lines 65-112): look up the
parent payment; when it is falsy or carries no stored payment method, return
`None` from inside the `try` block (no fallback); when the SDK raises — during
the lookup or during the charge — the `except` clause falls back to a plain
`create_payment`. -/
def create_recurrent_payment (gw : YooKassa) (parent_payment_id : String) :
    Option PaymentInfo :=
  match gw.find_one parent_payment_id with
  | Except.error _ => create_payment gw
  | Except.ok none => none
  | Except.ok (some none) => none
  | Except.ok (some (some pm)) =>
    match gw.create_recurrent_raw pm with
    | Except.error _ => create_payment gw
    | Except.ok p => some p

/-- User-facing notifications emitted by the renewal scheduler
(`notify_user_renewal_failed` / `_success` / `_pending`). -/
inductive Notice where
  | renewal_failed (sub_id : Nat)
  | renewal_success (sub_id : Nat)
  | renewal_pending (sub_id : Nat)
deriving Repr, DecidableEq

/-- The cooldown test of `process_renewal` (lines 71-76):
`utcnow() - last_renewal_attempt < timedelta(hours = 6)`, vacuously false
when no attempt was ever made. -/
def withinCooldown (now : Nat) (last : Option Nat) : Bool :=
  match last with
  | some t => decide (now - t < 6 * hourSecs)
  | none => false

/-- `SubscriptionRenewalService.process_renewal` (lines 63-112).  In order:
the attempt-cap check (notify failure, stop), the 6-hour cooldown check
(silent skip), the missing-bot check (silent stop), then the recurrent charge;
on a charge with immediate `succeeded` status the renewal row is created and
activated and a success notice is sent; on a pending charge the row is created
and a pending notice is sent; on a failed charge the attempt is recorded.
The usage ledger (`us`) is threaded through untouched: the source function
never calls `UsageRepository`. -/
def process_renewal (gw : YooKassa) (bot_set : Bool) (now : Nat)
    (st : Store) (us : UsageStore) (sub : UserSubscription) :
    Except String (Store × UsageStore × List Notice) :=
  if 3 ≤ sub.renewal_attempts then
    Except.ok (st, us, [Notice.renewal_failed sub.id])
  else if withinCooldown now sub.last_renewal_attempt then
    Except.ok (st, us, [])
  else if !bot_set then
    Except.ok (st, us, [])
  else
    match create_recurrent_payment gw sub.payment_id with
    | some payment_info =>
      if payment_info.status == "succeeded" then
        match activate_subscription
            (create_renewal_subscription st now sub payment_info.id).2
            now payment_info.id with
        | Except.error e => Except.error e
        | Except.ok (_, st3) =>
          Except.ok (st3, us, [Notice.renewal_success sub.id])
      else
        Except.ok ((create_renewal_subscription st now sub payment_info.id).2,
          us, [Notice.renewal_pending sub.id])
    | none =>
      match update_renewal_attempt st now sub.id with
      | Except.error e => Except.error e
      | Except.ok st2 => Except.ok (st2, us, [])

/-- `SubscriptionRenewalService.check_and_renew_subscriptions` (lines 48-61):
scan the subscriptions expiring within one day and process each; an exception
while processing one candidate is caught and recorded as a failed attempt for
that candidate only. -/
def check_and_renew_subscriptions (gw : YooKassa) (bot_set : Bool) (now : Nat)
    (st : Store) (us : UsageStore) :
    Except String (Store × UsageStore × List Notice) :=
  (get_expiring_subscriptions st now 1).foldl
    (fun acc sub =>
      match acc with
      | Except.error e => Except.error e
      | Except.ok (st1, us1, ns) =>
        match process_renewal gw bot_set now st1 us1 sub with
        | Except.ok (st2, us2, ns2) => Except.ok (st2, us2, ns ++ ns2)
        | Except.error _ =>
          match update_renewal_attempt st1 now sub.id with
          | Except.error e2 => Except.error e2
          | Except.ok st2 => Except.ok (st2, us1, ns))
    (Except.ok (st, us, []))

/-- Outcome shown to the user by `CallbackHandlers.handle_check_payment`. -/
inductive UiMessage where
  | activated (end_date : Option Nat)
  | processing
  | failed
  | silent
deriving Repr, DecidableEq

/-- `CallbackHandlers.handle_check_payment` (src/handlers/callback_handlers.py
lines 428-459): query the gateway for the payment status; on `succeeded`,
activate the subscription and — when a row was found — reset the user's usage
counters; on `pending`/`waiting_for_capture` report processing; otherwise
report failure.  `status_of` models `payment_service.check_payment_status`
(`none` is its `None` error result). -/
def handle_check_payment (status_of : String → Option String) (now : Nat)
    (st : Store) (us : UsageStore) (payment_id : String) :
    Except String (Store × UsageStore × UiMessage) :=
  match status_of payment_id with
  | some s =>
    if s == "succeeded" then
      match activate_subscription st now payment_id with
      | Except.error e => Except.error e
      | Except.ok (some sub, st2) =>
        match reset_usage us now sub.user_id with
        | Except.error e => Except.error e
        | Except.ok (_, us2) =>
          Except.ok (st2, us2, UiMessage.activated sub.end_date)
      | Except.ok (none, st2) => Except.ok (st2, us, UiMessage.silent)
    else if s == "pending" || s == "waiting_for_capture" then
      Except.ok (st, us, UiMessage.processing)
    else
      Except.ok (st, us, UiMessage.failed)
  | none => Except.ok (st, us, UiMessage.failed)

/-- Run `activate_subscription` and keep the resulting store (observation
helper for concrete runs). -/
def activateStore (st : Store) (now : Nat) (payment_id : String) : Store :=
  match activate_subscription st now payment_id with
  | Except.ok (_, st2) => st2
  | Except.error _ => st

/-- Run `activate_subscription` and keep the returned row's `end_date`
(observation helper for concrete runs). -/
def activatedEndDate (st : Store) (now : Nat) (payment_id : String) : Option Nat :=
  match activate_subscription st now payment_id with
  | Except.ok (some s, _) => s.end_date
  | _ => none

/-- The concrete usage row for the C10 witness. -/
def c10Row : UserUsage :=
  { id := 1, user_id := 7, photos_used := 2, questions_used := 3, last_reset := 40 }

/-- The concrete usage table for the C10 witness. -/
def c10Usage : UsageStore := { rows := [c10Row], next_id := 2 }

/-- The active subscription row of the C3 witness store. -/
def c3ActiveSub : UserSubscription :=
  { id := 1, user_id := 1, payment_id := "p", amount := 399,
    status := "succeeded", start_date := some 0, end_date := some 2592000,
    next_payment_date := some 2592000 }

/-- A store whose only row is active at time 0 for user 1. -/
def c3ActiveStore : Store := { subs := [c3ActiveSub], next_id := 2 }

/-- A usage table where user 1 has exhausted the free photo limit. -/
def c3UsageFive : UsageStore :=
  { rows := [{ id := 1, user_id := 1, photos_used := 5, questions_used := 3,
               last_reset := 0 }], next_id := 2 }

/-- A fresh store holding the single pending subscription of user 1 for
payment "p". -/
def c1Store : Store := (create_subscription ⟨[], 1⟩ 0 1 "p" 399).2

/-- The pending row inside `c1Store`. -/
def c1Row : UserSubscription :=
  { id := 1, user_id := 1, payment_id := "p", amount := 399, created_at := 0 }

/-- Two distinct payments of the same user, both created and both activated
at time 0: a state reached purely through repository operations. -/
def c2Store : Store :=
  activateStore
    (activateStore
      (create_subscription (create_subscription ⟨[], 1⟩ 0 1 "p1" 399).2 0 1 "p2" 399).2
      0 "p1")
    0 "p2"

/-- A store with exactly one active row for user 1. -/
def c2SingleStore : Store :=
  activateStore (create_subscription ⟨[], 1⟩ 0 1 "p" 399).2 0 "p"

/-- The activated row inside `c2SingleStore`. -/
def c2ActiveRow : UserSubscription :=
  { id := 1, user_id := 1, payment_id := "p", amount := 399,
    status := "succeeded", start_date := some 0, end_date := some 2592000,
    created_at := 0, next_payment_date := some 2592000 }

/-- Run `cancel_subscription` and keep the resulting store (observation
helper for concrete runs). -/
def cancelStore (st : Store) (subscription_id : Nat) : Store :=
  match cancel_subscription st subscription_id with
  | Except.ok (_, st2) => st2
  | Except.error _ => st

/-- Run `toggle_auto_renewal` and keep the resulting store (observation
helper for concrete runs). -/
def toggleStore (st : Store) (now user_id : Nat) (enable : Bool) : Store :=
  match toggle_auto_renewal st now user_id enable with
  | Except.ok (_, st2) => st2
  | Except.error _ => st

/-- The status of the row holding a payment reference (observation helper). -/
def statusOfPayment (st : Store) (payment_id : String) : Option String :=
  match st.subs.find? (fun r => r.payment_id == payment_id) with
  | some r => some r.status
  | none => none

/-- A store whose only subscription has been canceled: create then cancel. -/
def c6Store : Store := cancelStore (create_subscription ⟨[], 1⟩ 0 1 "p" 399).2 1

/-- The canceled row inside `c6Store`. -/
def c6StoreRow : UserSubscription :=
  { id := 1, user_id := 1, payment_id := "p", amount := 399,
    status := "canceled", is_auto_renewal := false, created_at := 0 }

/-- An active row next to a canceled row of the same user, for the C6
witness. -/
def c6ActiveRow : UserSubscription :=
  { id := 1, user_id := 1, payment_id := "a", amount := 399,
    status := "succeeded", start_date := some 0, end_date := some 2592000,
    next_payment_date := some 2592000 }

/-- Canceled sibling row of the C6 witness store. -/
def c6CanceledRow : UserSubscription :=
  { id := 2, user_id := 1, payment_id := "b", amount := 399,
    status := "canceled", is_auto_renewal := false }

/-- Witness store: one active and one canceled subscription of user 1. -/
def c6ToggleStore : Store := { subs := [c6ActiveRow, c6CanceledRow], next_id := 3 }

/-- Gateway for the C7 counterexample: the parent payment is found but has no
stored payment method, while a plain payment would succeed. -/
def c7Gw : YooKassa :=
  { find_one := fun _ => Except.ok (some none),
    create_raw := Except.ok { id := "plain", status := "pending", amount := 399 },
    create_recurrent_raw := fun _ => Except.error () }

/-- Gateway for the C7 witness, covering every branch of the lookup. -/
def c7WitnessGw : YooKassa :=
  { find_one := fun p =>
      if p == "raises" then Except.error ()
      else if p == "nomethod" then Except.ok (some none)
      else if p == "nopayment" then Except.ok none
      else Except.ok (some (some "pm")),
    create_raw := Except.ok { id := "plain", status := "pending", amount := 399 },
    create_recurrent_raw := fun _ => Except.error () }

/-- A candidate whose last renewal attempt was 2 hours before time 100000. -/
def c9SubRecent : UserSubscription :=
  { id := 1, user_id := 1, payment_id := "p", amount := 399,
    status := "succeeded", end_date := some 150000,
    renewal_attempts := 1, last_renewal_attempt := some 92800 }

/-- A candidate whose last renewal attempt was 7 hours before time 100000. -/
def c9SubStale : UserSubscription :=
  { id := 1, user_id := 1, payment_id := "p", amount := 399,
    status := "succeeded", end_date := some 150000,
    renewal_attempts := 1, last_renewal_attempt := some 74800 }

/-- Store for the C9 witness, holding the stale candidate. -/
def c9Store : Store := { subs := [c9SubStale], next_id := 2 }

/-- Gateway for the C9 witness: no stored method, so every renewal charge
fails. -/
def c9Gw : YooKassa :=
  { find_one := fun _ => Except.ok (some none),
    create_raw := Except.error (),
    create_recurrent_raw := fun _ => Except.error () }

/-- Candidate at the attempt cap for C5: succeeded, auto-renewing, expiring
soon, with three failed renewal attempts. -/
def c5Sub : UserSubscription :=
  { id := 1, user_id := 1, payment_id := "p", amount := 399,
    status := "succeeded", end_date := some 50000, renewal_attempts := 3 }

/-- Store of the C5 runs. -/
def c5Store : Store := { subs := [c5Sub], next_id := 2 }

/-- Gateway of the C5 runs (never reached). -/
def c5Gw : YooKassa :=
  { find_one := fun _ => Except.error (),
    create_raw := Except.error (),
    create_recurrent_raw := fun _ => Except.error () }

/-- The renewal row inserted by `create_renewal_subscription`. -/
def renewRow (st : Store) (now : Nat) (old : UserSubscription)
    (payment_id : String) : UserSubscription :=
  (create_renewal_subscription st now old payment_id).1

/-- The renewal row as re-stamped by the immediate activation. -/
def activatedRenewRow (st : Store) (now : Nat) (old : UserSubscription)
    (payment_id : String) : UserSubscription :=
  { renewRow st now old payment_id with
    status := "succeeded", start_date := some now,
    end_date := some (now + SUBSCRIPTION_DAYS * daySecs),
    next_payment_date := some (now + SUBSCRIPTION_DAYS * daySecs) }

/-- Gateway for the C4 runs: stored method found, immediate `succeeded`
confirmation of the recurrent charge. -/
def c4Gw : YooKassa :=
  { find_one := fun _ => Except.ok (some (some "m")),
    create_raw := Except.error (),
    create_recurrent_raw := fun _ =>
      Except.ok { id := "p2", status := "succeeded", amount := 399 } }

/-- The payment returned by the C4 gateway. -/
def c4Pinfo : PaymentInfo := { id := "p2", status := "succeeded", amount := 399 }

/-- Expiring auto-renewal subscription for the C4 runs. -/
def c4Sub : UserSubscription :=
  { id := 1, user_id := 1, payment_id := "p1", amount := 399,
    status := "succeeded", start_date := some 0, end_date := some 2592000,
    next_payment_date := some 2592000 }

/-- Store for the C4 runs. -/
def c4Store : Store := { subs := [c4Sub], next_id := 2 }

/-- Usage table with non-zero counters for the C4 counterexample. -/
def c4Usage : UsageStore :=
  { rows := [{ id := 1, user_id := 1, photos_used := 4, questions_used := 2,
               last_reset := 0 }], next_id := 2 }

/-- Pending row checked interactively in the C4 witness. -/
def c4CheckRow : UserSubscription :=
  { id := 1, user_id := 2, payment_id := "px", amount := 399 }

/-- Store of the interactive C4 witness run. -/
def c4CheckStore : Store := { subs := [c4CheckRow], next_id := 2 }

/-- Usage table of the interactive C4 witness run. -/
def c4CheckUsage : UsageStore :=
  { rows := [{ id := 1, user_id := 2, photos_used := 9, questions_used := 1,
               last_reset := 5 }], next_id := 2 }

/-- The usage row after the handler's reset at time 777. -/
def c4ResetRow : UserUsage :=
  { id := 1, user_id := 2, photos_used := 0, questions_used := 0,
    last_reset := 777 }

/-- The usage table after the handler's reset at time 777. -/
def c4ResetUsage : UsageStore := { rows := [c4ResetRow], next_id := 2 }

/-! ### Theorems -/

theorem insertByEndDesc_length (a : UserSubscription) (l : List UserSubscription) :
    (insertByEndDesc a l).length = l.length + 1 := by
  induction l with
  | nil => rfl
  | cons b t ih =>
      simp only [insertByEndDesc]
      split
      · simp [ih]
      · simp

theorem sortByEndDesc_length (l : List UserSubscription) :
    (sortByEndDesc l).length = l.length := by
  induction l with
  | nil => rfl
  | cons a t ih =>
      simp only [sortByEndDesc, List.foldr] at *
      rw [insertByEndDesc_length, ih]
      rfl

theorem mem_insertByEndDesc {x a : UserSubscription} {l : List UserSubscription} :
    x ∈ insertByEndDesc a l ↔ x = a ∨ x ∈ l := by
  induction l with
  | nil => simp [insertByEndDesc]
  | cons b t ih =>
      simp only [insertByEndDesc]
      split <;> simp only [List.mem_cons, ih] <;> tauto

theorem mem_sortByEndDesc {x : UserSubscription} {l : List UserSubscription} :
    x ∈ sortByEndDesc l ↔ x ∈ l := by
  induction l with
  | nil => simp [sortByEndDesc]
  | cons a t ih =>
      simp only [sortByEndDesc, List.foldr] at *
      rw [mem_insertByEndDesc, ih, List.mem_cons]

theorem scalar_eq_ok_some {α : Type} {l : List α} {a : α}
    (h : scalar_one_or_none l = Except.ok (some a)) : l = [a] := by
  match l with
  | [] => simp [scalar_one_or_none] at h
  | [b] =>
      simp only [scalar_one_or_none, Except.ok.injEq, Option.some.injEq] at h
      rw [h]
  | b :: c :: t => simp [scalar_one_or_none] at h

theorem scalar_of_two_le {α : Type} {l : List α} (h : 2 ≤ l.length) :
    scalar_one_or_none l = Except.error "MultipleResultsFound" := by
  match l with
  | [] => simp at h
  | [b] => simp at h
  | b :: c :: t => rfl

theorem mem_map_update_of_ne {l : List UserSubscription}
    {c s : UserSubscription} (hc : c ∈ l) (hne : c.id ≠ s.id) :
    c ∈ l.map (fun r => if r.id == s.id then s else r) := by
  exact List.mem_map.mpr ⟨c, hc, by simp [beq_iff_eq, hne]⟩

theorem mem_map_update_self {l : List UserSubscription}
    {r s : UserSubscription} (hr : r ∈ l) (hid : r.id = s.id) :
    s ∈ l.map (fun x => if x.id == s.id then s else x) := by
  exact List.mem_map.mpr ⟨r, hr, by simp [beq_iff_eq, hid]⟩

/-- Filtering a table after an in-place row update: when the filter matched
exactly the row `r`, the ids are unique, and the replacement `r2` keeps
satisfying the filter and keeps the primary key, the filter matches exactly
`r2` afterwards. -/
theorem filter_map_update (l : List UserSubscription)
    (p : UserSubscription → Bool) (r r2 : UserSubscription)
    (hnd : (l.map (fun s => s.id)).Nodup)
    (hf : l.filter p = [r]) (hp2 : p r2 = true) (hid : r2.id = r.id) :
    (l.map (fun x => if x.id == r2.id then r2 else x)).filter p = [r2] := by
  induction l with
  | nil => simp at hf
  | cons x t ih =>
      rw [List.map_cons, List.nodup_cons] at hnd
      obtain ⟨hx, hnd'⟩ := hnd
      by_cases hpx : p x = true
      · rw [List.filter_cons_of_pos hpx] at hf
        have hxr : x = r := by
          have := congrArg (fun l => l.head?) hf
          simpa using this
        have hft : t.filter p = [] := by
          have := congrArg (fun l => l.tail) hf
          simpa using this
        subst hxr
        have hmap : t.map (fun y => if y.id == r2.id then r2 else y) = t := by
          conv_rhs => rw [← List.map_id t]
          apply List.map_congr_left
          intro y hy
          have hyne : y.id ≠ x.id := by
            intro hcontra
            exact hx (by rw [← hcontra]; exact List.mem_map_of_mem _ hy)
          simp [beq_iff_eq, hid, hyne]
        have hfx : (if x.id == r2.id then r2 else x) = r2 := by
          simp [beq_iff_eq, hid]
        rw [List.map_cons, hmap, hfx, List.filter_cons_of_pos hp2, hft]
      · rw [List.filter_cons_of_neg (by simpa using hpx)] at hf
        have hrt : r ∈ t := by
          have : r ∈ t.filter p := by rw [hf]; exact List.mem_singleton_self r
          exact List.mem_of_mem_filter this
        have hxner : x.id ≠ r.id := by
          intro hcontra
          exact hx (hcontra ▸ List.mem_map_of_mem _ hrt)
        rw [List.map_cons]
        have hfx : (if x.id == r2.id then r2 else x) = x := by
          simp [beq_iff_eq, hid, hxner]
        rw [hfx, List.filter_cons_of_neg (by simpa using hpx)]
        exact ih hnd' hf

/-- Unfolding `get_active_subscription = ok (some a)`: the row is in the
table and satisfies the active predicate. -/
theorem get_active_some_mem {st : Store} {now user_id : Nat}
    {a : UserSubscription}
    (h : get_active_subscription st now user_id = Except.ok (some a)) :
    a ∈ st.subs ∧ isActiveRow now user_id a = true := by
  have hs := scalar_eq_ok_some h
  have ha : a ∈ sortByEndDesc (activeRows st now user_id) := by
    rw [hs]; exact List.mem_singleton_self a
  rw [mem_sortByEndDesc] at ha
  exact List.mem_filter.mp ha

/-- A successful `reset_usage` always hands back a record with both counters
zeroed and `last_reset = now`. -/
theorem reset_usage_zeroes {us : UsageStore} {now user_id : Nat}
    {u : UserUsage} {us2 : UsageStore}
    (h : reset_usage us now user_id = Except.ok (u, us2)) :
    u.photos_used = 0 ∧ u.questions_used = 0 ∧ u.last_reset = now := by
  unfold reset_usage at h
  cases hg : get_or_create_usage us now user_id with
  | error e => rw [hg] at h; exact absurd h (by simp)
  | ok p =>
      rw [hg] at h
      simp only [Except.ok.injEq, Prod.mk.injEq] at h
      obtain ⟨h1, _⟩ := h
      rw [← h1]
      exact ⟨rfl, rfl, rfl⟩

/-- C8: a row is returned by `get_expiring_subscriptions` with a one-day
window exactly when it is in the table, has `succeeded` status, auto-renewal
enabled, and an `end_date` in the half-open interval `(now, now + 1 day]`;
canceled rows and rows whose `end_date` has passed are excluded. -/
theorem c8_list_expiring (st : Store) (now : Nat) (r : UserSubscription) :
    r ∈ get_expiring_subscriptions st now 1 ↔
      r ∈ st.subs ∧ r.status = "succeeded" ∧ r.is_auto_renewal = true ∧
        ∃ e, r.end_date = some e ∧ now < e ∧ e ≤ now + daySecs := by
  unfold get_expiring_subscriptions
  rw [List.mem_filter]
  cases hend : r.end_date with
  | none => simp [hend]
  | some e =>
      simp only [hend, Bool.and_eq_true, beq_iff_eq, decide_eq_true_eq,
        Option.some.injEq, one_mul]
      constructor
      · rintro ⟨hmem, ⟨hst, hauto⟩, hle, hlt⟩
        exact ⟨hmem, hst, hauto, e, rfl, hlt, hle⟩
      · rintro ⟨hmem, hst, hauto, e2, he2, hlt, hle⟩
        cases he2
        exact ⟨hmem, ⟨hst, hauto⟩, hle, hlt⟩

/-- C10: for a user with an existing usage row, `increment_photos` raises
`photos_used` by exactly one and leaves `questions_used` and `last_reset`
unchanged, and `increment_questions` raises `questions_used` by exactly one
and leaves `photos_used` and `last_reset` unchanged. -/
theorem c10_increment_frame (us : UsageStore) (now user_id : Nat) (u : UserUsage)
    (hf : us.rows.filter (fun r => r.user_id == user_id) = [u]) :
    (∃ u2 us2, increment_photos us now user_id = Except.ok (u2, us2) ∧
       u2.photos_used = u.photos_used + 1 ∧
       u2.questions_used = u.questions_used ∧
       u2.last_reset = u.last_reset ∧ u2.user_id = u.user_id) ∧
    (∃ u3 us3, increment_questions us now user_id = Except.ok (u3, us3) ∧
       u3.questions_used = u.questions_used + 1 ∧
       u3.photos_used = u.photos_used ∧
       u3.last_reset = u.last_reset ∧ u3.user_id = u.user_id) := by
  have hg : get_or_create_usage us now user_id = Except.ok (u, us) := by
    unfold get_or_create_usage
    rw [hf]
    rfl
  constructor
  · have h2 : increment_photos us now user_id =
        Except.ok ({ u with photos_used := u.photos_used + 1 },
          updateUsage us { u with photos_used := u.photos_used + 1 }) := by
      unfold increment_photos
      rw [hg]
    exact ⟨_, _, h2, rfl, rfl, rfl, rfl⟩
  · have h3 : increment_questions us now user_id =
        Except.ok ({ u with questions_used := u.questions_used + 1 },
          updateUsage us { u with questions_used := u.questions_used + 1 }) := by
      unfold increment_questions
      rw [hg]
    exact ⟨_, _, h3, rfl, rfl, rfl, rfl⟩

/-- C10 witness: the frame property evaluated on a concrete usage table. -/
theorem c10_increment_frame_witness :
    (∃ u2 us2, increment_photos c10Usage 99 7 = Except.ok (u2, us2) ∧
       u2.photos_used = c10Row.photos_used + 1 ∧
       u2.questions_used = c10Row.questions_used ∧
       u2.last_reset = c10Row.last_reset ∧ u2.user_id = c10Row.user_id) ∧
    (∃ u3 us3, increment_questions c10Usage 99 7 = Except.ok (u3, us3) ∧
       u3.questions_used = c10Row.questions_used + 1 ∧
       u3.photos_used = c10Row.photos_used ∧
       u3.last_reset = c10Row.last_reset ∧ u3.user_id = c10Row.user_id) :=
  c10_increment_frame c10Usage 99 7 c10Row (by rfl)

/-- C3: with an active subscription both gates answer true regardless of the
counters; without one, `can_use_photo` is true exactly when
`photos_used < 5` (the free photo limit) and `can_ask_question` exactly when
`questions_used < 10` (the free question limit). -/
theorem c3_entitlement_gate :
    (∀ st us now user_id s,
       get_active_subscription st now user_id = Except.ok (some s) →
       can_use_photo st us now user_id = Except.ok (true, us) ∧
       can_ask_question st us now user_id = Except.ok (true, us)) ∧
    (∀ st us now user_id u us2,
       get_active_subscription st now user_id = Except.ok none →
       get_or_create_usage us now user_id = Except.ok (u, us2) →
       can_use_photo st us now user_id =
         Except.ok (decide (u.photos_used < 5), us2) ∧
       can_ask_question st us now user_id =
         Except.ok (decide (u.questions_used < 10), us2)) := by
  constructor
  · intro st us now user_id s hact
    constructor
    · unfold can_use_photo
      rw [hact]
    · unfold can_ask_question
      rw [hact]
  · intro st us now user_id u us2 hact hg
    constructor
    · unfold can_use_photo FREE_PHOTO_LIMIT
      rw [hact, hg]
    · unfold can_ask_question FREE_QUESTION_LIMIT
      rw [hact, hg]

/-- C3 witness: with an active subscription the photo gate is open despite an
exhausted counter; without one, `photos_used = 5` closes the photo gate while
`questions_used = 3 < 10` keeps the question gate open. -/
theorem c3_entitlement_gate_witness :
    can_use_photo c3ActiveStore c3UsageFive 0 1 = Except.ok (true, c3UsageFive) ∧
    can_use_photo ⟨[], 1⟩ c3UsageFive 0 1 = Except.ok (false, c3UsageFive) ∧
    can_ask_question ⟨[], 1⟩ c3UsageFive 0 1 = Except.ok (true, c3UsageFive) := by
  refine ⟨(c3_entitlement_gate.1 c3ActiveStore c3UsageFive 0 1 c3ActiveSub (by rfl)).1, ?_, ?_⟩
  · have h := (c3_entitlement_gate.2 ⟨[], 1⟩ c3UsageFive 0 1
      { id := 1, user_id := 1, photos_used := 5, questions_used := 3, last_reset := 0 }
      c3UsageFive (by rfl) (by rfl)).1
    simpa using h
  · have h := (c3_entitlement_gate.2 ⟨[], 1⟩ c3UsageFive 0 1
      { id := 1, user_id := 1, photos_used := 5, questions_used := 3, last_reset := 0 }
      c3UsageFive (by rfl) (by rfl)).2
    simpa using h

/-- C1 counterexample: activating the same payment reference a second time is
not a no-op — the second call re-stamps `end_date` from its own call time
(3600 + 30 days), which differs from the end_date after one call (30 days). -/
theorem c1_activate_not_idempotent_counterexample :
    activatedEndDate c1Store 0 "p" = some 2592000 ∧
    activatedEndDate (activateStore c1Store 0 "p") 3600 "p" = some 2595600 ∧
    activatedEndDate (activateStore c1Store 0 "p") 3600 "p" ≠
      activatedEndDate c1Store 0 "p" := by
  refine ⟨rfl, rfl, ?_⟩
  decide

/-- C1 (amended): `activate_subscription` does not check the current status:
each call on a matching row (unique ids assumed) stamps `succeeded` and sets
`end_date` to its own call time plus the subscription duration, so a duplicate
confirmation re-stamps the dates and the two-call `end_date` equals the
one-call `end_date` only when both calls carry the same timestamp. -/
theorem c1_activate_restamps (st : Store) (now1 now2 : Nat) (payment_id : String)
    (r : UserSubscription)
    (hnd : (st.subs.map (fun s => s.id)).Nodup)
    (hf : st.subs.filter (fun x => x.payment_id == payment_id) = [r]) :
    ∃ s1 st1 s2 st2,
      activate_subscription st now1 payment_id = Except.ok (some s1, st1) ∧
      s1.end_date = some (now1 + SUBSCRIPTION_DAYS * daySecs) ∧
      activate_subscription st1 now2 payment_id = Except.ok (some s2, st2) ∧
      s2.end_date = some (now2 + SUBSCRIPTION_DAYS * daySecs) ∧
      (now1 = now2 → s2.end_date = s1.end_date) := by
  have hp : (fun x : UserSubscription => x.payment_id == payment_id) r = true := by
    have hrmem : r ∈ st.subs.filter (fun x => x.payment_id == payment_id) := by
      rw [hf]; exact List.mem_singleton_self r
    exact (List.mem_filter.mp hrmem).2
  have h1 : activate_subscription st now1 payment_id =
      Except.ok (some { r with
          status := "succeeded", start_date := some now1,
          end_date := some (now1 + SUBSCRIPTION_DAYS * daySecs),
          next_payment_date := some (now1 + SUBSCRIPTION_DAYS * daySecs) },
        updateSub st { r with
          status := "succeeded", start_date := some now1,
          end_date := some (now1 + SUBSCRIPTION_DAYS * daySecs),
          next_payment_date := some (now1 + SUBSCRIPTION_DAYS * daySecs) }) := by
    unfold activate_subscription
    rw [hf]
    rfl
  have hf2 := filter_map_update st.subs
    (fun x : UserSubscription => x.payment_id == payment_id) r
    { r with
      status := "succeeded", start_date := some now1,
      end_date := some (now1 + SUBSCRIPTION_DAYS * daySecs),
      next_payment_date := some (now1 + SUBSCRIPTION_DAYS * daySecs) }
    hnd hf hp rfl
  have h2 : activate_subscription (updateSub st { r with
        status := "succeeded", start_date := some now1,
        end_date := some (now1 + SUBSCRIPTION_DAYS * daySecs),
        next_payment_date := some (now1 + SUBSCRIPTION_DAYS * daySecs) })
      now2 payment_id =
      Except.ok (some { r with
          status := "succeeded", start_date := some now2,
          end_date := some (now2 + SUBSCRIPTION_DAYS * daySecs),
          next_payment_date := some (now2 + SUBSCRIPTION_DAYS * daySecs) },
        updateSub (updateSub st { r with
            status := "succeeded", start_date := some now1,
            end_date := some (now1 + SUBSCRIPTION_DAYS * daySecs),
            next_payment_date := some (now1 + SUBSCRIPTION_DAYS * daySecs) })
          { r with
            status := "succeeded", start_date := some now2,
            end_date := some (now2 + SUBSCRIPTION_DAYS * daySecs),
            next_payment_date := some (now2 + SUBSCRIPTION_DAYS * daySecs) }) := by
    unfold activate_subscription
    simp only [updateSub]
    rw [hf2]
    rfl
  exact ⟨_, _, _, _, h1, rfl, h2, rfl, fun h => by rw [h]⟩

/-- C1 witness: the amended statement evaluated on the concrete store, with
the duplicate confirmation arriving one hour after the first. -/
theorem c1_activate_restamps_witness :
    ∃ s1 st1 s2 st2,
      activate_subscription c1Store 0 "p" = Except.ok (some s1, st1) ∧
      s1.end_date = some (0 + SUBSCRIPTION_DAYS * daySecs) ∧
      activate_subscription st1 3600 "p" = Except.ok (some s2, st2) ∧
      s2.end_date = some (3600 + SUBSCRIPTION_DAYS * daySecs) ∧
      (0 = 3600 → s2.end_date = s1.end_date) :=
  c1_activate_restamps c1Store 0 3600 "p" c1Row (by decide) (by decide)

/-- C2 counterexample: the repository operations do not maintain the
at-most-one-active invariant — activating two distinct payments of one user
leaves two rows satisfying the active predicate — and on that state
`get_active_subscription` raises `MultipleResultsFound` instead of
tie-breaking by latest `end_date`. -/
theorem c2_active_invariant_counterexample :
    (activeRows c2Store 0 1).length = 2 ∧
    get_active_subscription c2Store 0 1 = Except.error "MultipleResultsFound" :=
  ⟨rfl, rfl⟩

/-- C2 (amended): `get_active_subscription` returns the qualifying row when
exactly one row satisfies the active predicate and `none` when none does, but
when several rows qualify it raises `MultipleResultsFound` rather than
tie-breaking deterministically; the at-most-one-active invariant itself is not
enforced by the operations. -/
theorem c2_get_active_determinism (st : Store) (now user_id : Nat) :
    (activeRows st now user_id = [] →
       get_active_subscription st now user_id = Except.ok none) ∧
    (∀ s, activeRows st now user_id = [s] →
       get_active_subscription st now user_id = Except.ok (some s)) ∧
    (2 ≤ (activeRows st now user_id).length →
       get_active_subscription st now user_id = Except.error "MultipleResultsFound") := by
  refine ⟨?_, ?_, ?_⟩
  · intro h
    unfold get_active_subscription
    rw [h]
    rfl
  · intro s h
    unfold get_active_subscription
    rw [h]
    rfl
  · intro h
    unfold get_active_subscription
    apply scalar_of_two_le
    rw [sortByEndDesc_length]
    exact h

/-- C2 witness: the amended statement evaluated on a single-active store and
on the double-activated store. -/
theorem c2_get_active_determinism_witness :
    get_active_subscription c2SingleStore 0 1 = Except.ok (some c2ActiveRow) ∧
    get_active_subscription c2Store 0 1 = Except.error "MultipleResultsFound" :=
  ⟨(c2_get_active_determinism c2SingleStore 0 1).2.1 c2ActiveRow (by decide),
   (c2_get_active_determinism c2Store 0 1).2.2 (by decide)⟩

/-- C6 counterexample: a `canceled` row is not immutable — activating its
payment reference transitions it back to `succeeded`. -/
theorem c6_canceled_counterexample :
    statusOfPayment c6Store "p" = some "canceled" ∧
    statusOfPayment (activateStore c6Store 100 "p") "p" = some "succeeded" :=
  ⟨rfl, rfl⟩

/-- C6 (amended): once a row is `canceled`, `toggle_auto_renewal` never
touches it (it only rewrites the active, `succeeded` row), and
`cancel_subscription` leaves its status and dates unchanged though it still
forces the auto-renewal flag off; `activate_subscription` on the row's payment
reference, however, does mutate it — back to `succeeded` with re-stamped
dates. -/
theorem c6_canceled_row_mutability :
    (∀ st now user_id enable o st2 c,
       toggle_auto_renewal st now user_id enable = Except.ok (o, st2) →
       (st.subs.map (fun s => s.id)).Nodup →
       c ∈ st.subs → c.status = "canceled" → c ∈ st2.subs) ∧
    (∀ st sid r, st.subs.filter (fun x => x.id == sid) = [r] →
       r.status = "canceled" →
       cancel_subscription st sid =
         Except.ok (true,
           updateSub st { r with status := "canceled", is_auto_renewal := false })) ∧
    (∀ st now payment_id r,
       st.subs.filter (fun x => x.payment_id == payment_id) = [r] →
       r.status = "canceled" →
       ∃ s2 st2, activate_subscription st now payment_id = Except.ok (some s2, st2) ∧
         s2.status = "succeeded" ∧ s2.id = r.id ∧ s2 ∈ st2.subs) := by
  refine ⟨?_, ?_, ?_⟩
  · intro st now user_id enable o st2 c htog hnd hc hcstat
    unfold toggle_auto_renewal at htog
    cases hga : get_active_subscription st now user_id with
    | error e =>
        rw [hga] at htog
        exact absurd htog (by simp)
    | ok oo =>
        rw [hga] at htog
        cases oo with
        | none =>
            simp only [Except.ok.injEq, Prod.mk.injEq] at htog
            rw [← htog.2]
            exact hc
        | some a =>
            simp only [Except.ok.injEq, Prod.mk.injEq] at htog
            obtain ⟨hamem, hact⟩ := get_active_some_mem hga
            have hastat : a.status = "succeeded" := by
              unfold isActiveRow at hact
              simp only [Bool.and_eq_true, beq_iff_eq] at hact
              exact hact.1.2
            have hcnea : c ≠ a := by
              intro h
              rw [h, hastat] at hcstat
              exact absurd hcstat (by simp)
            have hidne : c.id ≠ a.id := fun hcontra =>
              hcnea (List.inj_on_of_nodup_map hnd hc hamem hcontra)
            rw [← htog.2]
            exact mem_map_update_of_ne hc hidne
  · intro st sid r hf hrst
    unfold cancel_subscription
    rw [hf]
    rfl
  · intro st now payment_id r hf hrst
    have h1 : activate_subscription st now payment_id =
        Except.ok (some { r with
            status := "succeeded", start_date := some now,
            end_date := some (now + SUBSCRIPTION_DAYS * daySecs),
            next_payment_date := some (now + SUBSCRIPTION_DAYS * daySecs) },
          updateSub st { r with
            status := "succeeded", start_date := some now,
            end_date := some (now + SUBSCRIPTION_DAYS * daySecs),
            next_payment_date := some (now + SUBSCRIPTION_DAYS * daySecs) }) := by
      unfold activate_subscription
      rw [hf]
      rfl
    refine ⟨_, _, h1, rfl, rfl, ?_⟩
    have hrmem : r ∈ st.subs := by
      have : r ∈ st.subs.filter (fun x => x.payment_id == payment_id) := by
        rw [hf]; exact List.mem_singleton_self r
      exact List.mem_of_mem_filter this
    exact mem_map_update_self hrmem rfl

/-- C6 witness: the three amended conclusions evaluated on concrete stores. -/
theorem c6_canceled_row_mutability_witness :
    c6CanceledRow ∈ (toggleStore c6ToggleStore 0 1 false).subs ∧
    cancel_subscription c6ToggleStore 2 =
      Except.ok (true,
        updateSub c6ToggleStore
          { c6CanceledRow with status := "canceled", is_auto_renewal := false }) ∧
    (∃ s2 st2, activate_subscription c6Store 100 "p" = Except.ok (some s2, st2) ∧
       s2.status = "succeeded" ∧ s2.id = c6StoreRow.id ∧ s2 ∈ st2.subs) :=
  ⟨c6_canceled_row_mutability.1 c6ToggleStore 0 1 false
      (some { c6ActiveRow with is_auto_renewal := false })
      (toggleStore c6ToggleStore 0 1 false) c6CanceledRow (by rfl) (by decide)
      (by decide) rfl,
   c6_canceled_row_mutability.2.1 c6ToggleStore 2 c6CanceledRow (by decide) rfl,
   c6_canceled_row_mutability.2.2 c6Store 100 "p" c6StoreRow (by decide) rfl⟩

/-- C7 counterexample: when the parent payment carries no stored payment
method, `create_recurrent_payment` reports failure (`none`) instead of
falling back to the plain `create_payment`, which would have succeeded. -/
theorem c7_no_fallback_counterexample :
    create_recurrent_payment c7Gw "parent" = none ∧
    create_payment c7Gw =
      some { id := "plain", status := "pending", confirmation_url := none,
             amount := 399 } :=
  ⟨rfl, rfl⟩

/-- C7 (amended): the fallback to a non-recurrent `create_payment` happens
exactly when the SDK raises — during the parent-payment lookup or during the
recurrent charge; when the lookup completes but yields no payment or a
payment without a stored payment method, `create_recurrent_payment` returns
failure (`None`) without any fallback. -/
theorem c7_recurrent_fallback (gw : YooKassa) (parent_payment_id : String) :
    (gw.find_one parent_payment_id = Except.error () →
       create_recurrent_payment gw parent_payment_id = create_payment gw) ∧
    (gw.find_one parent_payment_id = Except.ok none →
       create_recurrent_payment gw parent_payment_id = none) ∧
    (gw.find_one parent_payment_id = Except.ok (some none) →
       create_recurrent_payment gw parent_payment_id = none) ∧
    (∀ pm, gw.find_one parent_payment_id = Except.ok (some (some pm)) →
       gw.create_recurrent_raw pm = Except.error () →
       create_recurrent_payment gw parent_payment_id = create_payment gw) := by
  refine ⟨?_, ?_, ?_, ?_⟩
  · intro h
    unfold create_recurrent_payment
    rw [h]
  · intro h
    unfold create_recurrent_payment
    rw [h]
  · intro h
    unfold create_recurrent_payment
    rw [h]
  · intro pm h hc
    unfold create_recurrent_payment
    rw [h]
    simp only [hc]

/-- C7 witness: each branch of the amended statement evaluated on a concrete
gateway. -/
theorem c7_recurrent_fallback_witness :
    create_recurrent_payment c7WitnessGw "raises" = create_payment c7WitnessGw ∧
    create_recurrent_payment c7WitnessGw "nopayment" = none ∧
    create_recurrent_payment c7WitnessGw "nomethod" = none ∧
    create_recurrent_payment c7WitnessGw "other" = create_payment c7WitnessGw :=
  ⟨(c7_recurrent_fallback c7WitnessGw "raises").1 rfl,
   (c7_recurrent_fallback c7WitnessGw "nopayment").2.1 rfl,
   (c7_recurrent_fallback c7WitnessGw "nomethod").2.2.1 rfl,
   (c7_recurrent_fallback c7WitnessGw "other").2.2.2 "pm" rfl rfl⟩

/-- C9: a candidate below the attempt cap whose last renewal attempt lies
strictly within the past 6 hours is skipped for the cycle — no state change,
no notice, no dependence on the gateway — while one whose last attempt is at
least 6 hours old proceeds to a renewal attempt (observed here through a
failing gateway: the attempt counter and timestamp are updated). -/
theorem c9_cooldown_gate :
    (∀ gw bot_set now t st us (sub : UserSubscription),
       sub.renewal_attempts < 3 →
       sub.last_renewal_attempt = some t →
       now - t < 6 * hourSecs →
       process_renewal gw bot_set now st us sub = Except.ok (st, us, [])) ∧
    (∀ gw now t st us (sub : UserSubscription),
       sub.renewal_attempts < 3 →
       sub.last_renewal_attempt = some t →
       6 * hourSecs ≤ now - t →
       create_recurrent_payment gw sub.payment_id = none →
       st.subs.filter (fun x => x.id == sub.id) = [sub] →
       process_renewal gw true now st us sub =
         Except.ok (updateSub st { sub with
             renewal_attempts := sub.renewal_attempts + 1,
             last_renewal_attempt := some now }, us, [])) := by
  constructor
  · intro gw bot_set now t st us sub hcap hlast hcool
    unfold process_renewal
    have h2 : withinCooldown now sub.last_renewal_attempt = true := by
      unfold withinCooldown
      rw [hlast]
      simpa using hcool
    rw [if_neg (by omega), if_pos h2]
  · intro gw now t st us sub hcap hlast hcool hgw hf
    unfold process_renewal
    have h2 : withinCooldown now sub.last_renewal_attempt = false := by
      unfold withinCooldown
      rw [hlast]
      simpa using hcool
    have hupd : update_renewal_attempt st now sub.id =
        Except.ok (updateSub st { sub with
          renewal_attempts := sub.renewal_attempts + 1,
          last_renewal_attempt := some now }) := by
      unfold update_renewal_attempt
      rw [hf]
      rfl
    rw [if_neg (by omega), if_neg (by simp [h2]), if_neg (by decide), hgw, hupd]

/-- C9 witness: at time 100000, the 2-hours-ago candidate is skipped and the
7-hours-ago candidate gets an attempt recorded. -/
theorem c9_cooldown_gate_witness :
    process_renewal c9Gw true 100000 c9Store ⟨[], 1⟩ c9SubRecent =
      Except.ok (c9Store, ⟨[], 1⟩, []) ∧
    process_renewal c9Gw true 100000 c9Store ⟨[], 1⟩ c9SubStale =
      Except.ok (updateSub c9Store { c9SubStale with
          renewal_attempts := c9SubStale.renewal_attempts + 1,
          last_renewal_attempt := some 100000 }, ⟨[], 1⟩, []) :=
  ⟨c9_cooldown_gate.1 c9Gw true 100000 92800 c9Store ⟨[], 1⟩ c9SubRecent
      (by decide) rfl (by decide),
   c9_cooldown_gate.2 c9Gw 100000 74800 c9Store ⟨[], 1⟩ c9SubStale
      (by decide) rfl (by decide) rfl (by decide)⟩

/-- C5 (amended): a subscription whose `renewal_attempts` has reached 3 is
never retried — `process_renewal` stops at the attempt-gate with the store
untouched and no gateway dependence — but the final-failure notification is
emitted again on every scan cycle in which the subscription still appears in
the one-day expiry window, not exactly once per crossing of the threshold. -/
theorem c5_attempt_cap :
    (∀ gw bot_set now st us (sub : UserSubscription),
       3 ≤ sub.renewal_attempts →
       process_renewal gw bot_set now st us sub =
         Except.ok (st, us, [Notice.renewal_failed sub.id])) ∧
    (∀ gw bot_set now now2 st us (sub : UserSubscription),
       3 ≤ sub.renewal_attempts →
       get_expiring_subscriptions st now 1 = [sub] →
       get_expiring_subscriptions st now2 1 = [sub] →
       check_and_renew_subscriptions gw bot_set now st us =
         Except.ok (st, us, [Notice.renewal_failed sub.id]) ∧
       check_and_renew_subscriptions gw bot_set now2 st us =
         Except.ok (st, us, [Notice.renewal_failed sub.id])) := by
  have hproc : ∀ gw bot_set now st us (sub : UserSubscription),
      3 ≤ sub.renewal_attempts →
      process_renewal gw bot_set now st us sub =
        Except.ok (st, us, [Notice.renewal_failed sub.id]) := by
    intro gw bot_set now st us sub hcap
    unfold process_renewal
    rw [if_pos hcap]
  refine ⟨hproc, ?_⟩
  intro gw bot_set now now2 st us sub hcap h1 h2
  constructor
  · unfold check_and_renew_subscriptions
    rw [h1]
    simp [hproc gw bot_set now st us sub hcap]
  · unfold check_and_renew_subscriptions
    rw [h2]
    simp [hproc gw bot_set now2 st us sub hcap]

/-- C5 counterexample: two consecutive scan cycles (times 0 and 3600) both
emit the final-failure notification for the same capped subscription — the
notification is per cycle, not once per crossing of the threshold. -/
theorem c5_repeat_notification_counterexample :
    check_and_renew_subscriptions c5Gw true 0 c5Store ⟨[], 1⟩ =
      Except.ok (c5Store, ⟨[], 1⟩, [Notice.renewal_failed 1]) ∧
    check_and_renew_subscriptions c5Gw true 3600 c5Store ⟨[], 1⟩ =
      Except.ok (c5Store, ⟨[], 1⟩, [Notice.renewal_failed 1]) :=
  ⟨rfl, rfl⟩

/-- C5 witness: the amended statement evaluated on the concrete capped
subscription, for a single processing step and for two scan cycles. -/
theorem c5_attempt_cap_witness :
    process_renewal c5Gw false 7777 c5Store ⟨[], 1⟩ c5Sub =
      Except.ok (c5Store, ⟨[], 1⟩, [Notice.renewal_failed 1]) ∧
    check_and_renew_subscriptions c5Gw true 0 c5Store ⟨[], 1⟩ =
      Except.ok (c5Store, ⟨[], 1⟩, [Notice.renewal_failed 1]) ∧
    check_and_renew_subscriptions c5Gw true 3600 c5Store ⟨[], 1⟩ =
      Except.ok (c5Store, ⟨[], 1⟩, [Notice.renewal_failed 1]) :=
  ⟨c5_attempt_cap.1 c5Gw false 7777 c5Store ⟨[], 1⟩ c5Sub (by decide),
   (c5_attempt_cap.2 c5Gw true 0 3600 c5Store ⟨[], 1⟩ c5Sub (by decide)
      (by decide) (by decide)).1,
   (c5_attempt_cap.2 c5Gw true 0 3600 c5Store ⟨[], 1⟩ c5Sub (by decide)
      (by decide) (by decide)).2⟩

/-- C4 (amended): on a gateway success with immediate `succeeded`
confirmation the scheduler creates a renewal row, activates it immediately
and notifies success, but it does not reset the Usage Ledger — the usage
store is returned unchanged; the counters-zeroing reset is invoked by the
interactive payment-check handler after its activation instead. -/
theorem c4_renewal_activation :
    (∀ gw now st us (sub : UserSubscription) pinfo,
       sub.renewal_attempts < 3 →
       withinCooldown now sub.last_renewal_attempt = false →
       create_recurrent_payment gw sub.payment_id = some pinfo →
       pinfo.status = "succeeded" →
       st.subs.filter (fun r => r.payment_id == pinfo.id) = [] →
       ∃ st3, process_renewal gw true now st us sub =
           Except.ok (st3, us, [Notice.renewal_success sub.id]) ∧
         activatedRenewRow st now sub pinfo.id ∈ st3.subs ∧
         (activatedRenewRow st now sub pinfo.id).status = "succeeded" ∧
         (activatedRenewRow st now sub pinfo.id).parent_payment_id =
           some sub.payment_id ∧
         (activatedRenewRow st now sub pinfo.id).end_date =
           some (now + SUBSCRIPTION_DAYS * daySecs)) ∧
    (∀ status_of now st us (payment_id : String) r u us2,
       status_of payment_id = some "succeeded" →
       st.subs.filter (fun x => x.payment_id == payment_id) = [r] →
       reset_usage us now r.user_id = Except.ok (u, us2) →
       ∃ st2, handle_check_payment status_of now st us payment_id =
           Except.ok (st2, us2,
             UiMessage.activated (some (now + SUBSCRIPTION_DAYS * daySecs))) ∧
         u.photos_used = 0 ∧ u.questions_used = 0 ∧ u.last_reset = now) := by
  constructor
  · intro gw now st us sub pinfo hcap hcool hgw hst hnew
    have hbeq : (pinfo.status == "succeeded") = true := by
      rw [hst]
      rfl
    have hprow : ((renewRow st now sub pinfo.id).payment_id == pinfo.id) = true := by
      simp [renewRow, create_renewal_subscription]
    have hfilterapp : (create_renewal_subscription st now sub pinfo.id).2.subs.filter
        (fun r => r.payment_id == pinfo.id) = [renewRow st now sub pinfo.id] := by
      show (st.subs ++ [renewRow st now sub pinfo.id]).filter
          (fun r => r.payment_id == pinfo.id) = [renewRow st now sub pinfo.id]
      rw [List.filter_append, hnew, List.nil_append]
      simp [List.filter_cons, hprow]
    have hact : activate_subscription
        (create_renewal_subscription st now sub pinfo.id).2 now pinfo.id =
        Except.ok (some (activatedRenewRow st now sub pinfo.id),
          updateSub (create_renewal_subscription st now sub pinfo.id).2
            (activatedRenewRow st now sub pinfo.id)) := by
      unfold activate_subscription
      rw [hfilterapp]
      rfl
    refine ⟨updateSub (create_renewal_subscription st now sub pinfo.id).2
        (activatedRenewRow st now sub pinfo.id), ?_, ?_, rfl, rfl, rfl⟩
    · unfold process_renewal
      rw [if_neg (by omega), if_neg (by simp [hcool]), if_neg (by decide), hgw]
      simp only [hbeq, if_true, hact]
    · have hr : renewRow st now sub pinfo.id ∈
          st.subs ++ [renewRow st now sub pinfo.id] :=
        List.mem_append_right _ (List.mem_singleton_self _)
      exact mem_map_update_self hr rfl
  · intro status_of now st us payment_id r u us2 hsf hf hreset
    have hact1 : activate_subscription st now payment_id =
        Except.ok (some { r with
            status := "succeeded", start_date := some now,
            end_date := some (now + SUBSCRIPTION_DAYS * daySecs),
            next_payment_date := some (now + SUBSCRIPTION_DAYS * daySecs) },
          updateSub st { r with
            status := "succeeded", start_date := some now,
            end_date := some (now + SUBSCRIPTION_DAYS * daySecs),
            next_payment_date := some (now + SUBSCRIPTION_DAYS * daySecs) }) := by
      unfold activate_subscription
      rw [hf]
      rfl
    obtain ⟨hz1, hz2, hz3⟩ := reset_usage_zeroes hreset
    refine ⟨updateSub st { r with
        status := "succeeded", start_date := some now,
        end_date := some (now + SUBSCRIPTION_DAYS * daySecs),
        next_payment_date := some (now + SUBSCRIPTION_DAYS * daySecs) },
      ?_, hz1, hz2, hz3⟩
    unfold handle_check_payment
    simp only [hsf, beq_self_eq_true, if_true, hact1, hreset]

/-- C4 counterexample: an immediate-confirmation renewal run activates the
renewal row and notifies success, yet the usage store comes back unchanged —
`photos_used` stays at 4 instead of being reset to zero. -/
theorem c4_no_reset_counterexample :
    (∃ st3, process_renewal c4Gw true 2591000 c4Store c4Usage c4Sub =
        Except.ok (st3, c4Usage, [Notice.renewal_success 1]) ∧
      ∃ r ∈ st3.subs, r.payment_id = "p2" ∧ r.status = "succeeded") ∧
    c4Usage.rows.map (fun r => r.photos_used) = [4] := by
  refine ⟨⟨_, rfl, ?_⟩, rfl⟩
  decide

/-- C4 witness: both amended conclusions evaluated on concrete runs. -/
theorem c4_renewal_activation_witness :
    (∃ st3, process_renewal c4Gw true 2591000 c4Store c4Usage c4Sub =
        Except.ok (st3, c4Usage, [Notice.renewal_success c4Sub.id]) ∧
      activatedRenewRow c4Store 2591000 c4Sub c4Pinfo.id ∈ st3.subs ∧
      (activatedRenewRow c4Store 2591000 c4Sub c4Pinfo.id).status = "succeeded" ∧
      (activatedRenewRow c4Store 2591000 c4Sub c4Pinfo.id).parent_payment_id =
        some c4Sub.payment_id ∧
      (activatedRenewRow c4Store 2591000 c4Sub c4Pinfo.id).end_date =
        some (2591000 + SUBSCRIPTION_DAYS * daySecs)) ∧
    (∃ st2, handle_check_payment (fun _ => some "succeeded") 777
        c4CheckStore c4CheckUsage "px" =
        Except.ok (st2, c4ResetUsage,
          UiMessage.activated (some (777 + SUBSCRIPTION_DAYS * daySecs))) ∧
      c4ResetRow.photos_used = 0 ∧ c4ResetRow.questions_used = 0 ∧
      c4ResetRow.last_reset = 777) :=
  ⟨c4_renewal_activation.1 c4Gw 2591000 c4Store c4Usage c4Sub c4Pinfo
      (by decide) rfl rfl rfl (by decide),
   c4_renewal_activation.2 (fun _ => some "succeeded") 777 c4CheckStore
      c4CheckUsage "px" c4CheckRow c4ResetRow c4ResetUsage rfl (by decide) rfl⟩

end Nutricion
